import Mathlib

/-!
Verification of the image-feedback fine-pointing and optical-alignment engine
of ts_externalscripts (AuxTel/LATISS scripts).

The development shallowly embeds the two core algorithms:

* the centroid acquisition loop of
  `python/lsst/ts/externalscripts/auxtel/latiss_acquire_and_take_sequence.py`
  (method `latiss_acquire`, plus `latiss_take_sequence` and `arun`), modelled
  as functions that emit a trace of focus-offset and telescope-offset
  commands; and

* the CWFS alignment pipeline of
  `python/lsst/ts/externalscripts/auxtel/latiss_cwfs_align.py`
  (stamp cutting/binning, source selection, the dz/binning configuration
  setters, the intra/extra image sequence, and the rotation/sensitivity/scale
  offset mapping of `show_results`).

Real numbers in the Python code are modelled as rationals; the rotation
matrix is parameterized by the values (c, s) of cos/sin of the angle, which
at angle 0 degrees are exactly (1, 0).
-/

set_option linter.unusedVariables false

namespace AcqScript

/-- Commands the acquisition run sends to external services.
`focus z` is `ataos.cmd_offset.set_start(z=z)`; `offsetXY` is
`atcs.offset_xy(..., relative=True, persistent=False)`; `measure` is one
take-image-plus-centroid-measurement step of the loop body. -/
inductive Cmd
  | focus (z : ℚ)
  | offsetXY
  | measure
  deriving DecidableEq

/-- Outcome of one centroid measurement (`self.qm.run`): either a successful
measurement whose computed radial offset from the target is `dr` arcsec, or
`result.success == False`. -/
inductive MeasOutcome
  | ok (dr : ℚ)
  | fail
  deriving DecidableEq

/-- How `latiss_acquire` terminates: acquisition success, the RuntimeError
raised when the centroid finding algorithm is unsuccessful, or the
RuntimeError raised when the iteration budget is exhausted. -/
inductive AcqExit
  | success
  | centroidError
  | maxIterError
  deriving DecidableEq

/-- The configuration fields of the script relevant to the acquisition run
(`configure`): `nvisits` is the length of `visit_configs`. -/
structure AcqConfig where
  manual_focus_offset : ℚ
  max_acq_iter : ℕ
  target_pointing_tolerance : ℚ
  do_acquire : Bool
  do_take_sequence : Bool
  nvisits : ℕ
  deriving DecidableEq

/-- The `for iter_num in range(self.max_acq_iter)` loop of `latiss_acquire`.
First argument of the recursion is the number of remaining iterations, the
second the current iteration index (used to look up the measurement outcome),
the third the `manual_focus_offset_applied` flag.  Each iteration measures;
on `result.success == False` it removes the focus offset if applied and
raises; on a measurement below tolerance it breaks with success; otherwise it
issues one relative x/y telescope offset and continues.  Returns the command
trace, the exit kind, and the final applied flag. -/
def acqLoop (tol m : ℚ) (meas : ℕ → MeasOutcome) :
    ℕ → ℕ → Bool → List Cmd × AcqExit × Bool
  | 0, _, applied => ([], .maxIterError, applied)
  | n + 1, i, applied =>
    match meas i with
    | .fail =>
      (Cmd.measure :: (if applied then [Cmd.focus (-m)] else []),
        .centroidError, false)
    | .ok dr =>
      if dr < tol then
        ([Cmd.measure], .success, applied)
      else
        let r := acqLoop tol m meas n (i + 1) applied
        (Cmd.measure :: Cmd.offsetXY :: r.1, r.2)

/-- The pre-loop manual-focus-offset application of `latiss_acquire`:
applied only when the configured offset is nonzero and not already applied. -/
def acquirePre (m : ℚ) (applied0 : Bool) : List Cmd × Bool :=
  if m ≠ 0 ∧ applied0 = false then ([Cmd.focus m], true) else ([], applied0)

/-- The post-loop bookkeeping of `latiss_acquire`: on iteration-budget
exhaustion the focus offset is removed (if applied) before the RuntimeError;
on success it is removed only when no take-sequence phase follows. -/
def acquirePost (m : ℚ) (doSeq : Bool) :
    AcqExit → Bool → List Cmd × Bool
  | .centroidError, applied => ([], applied)
  | .maxIterError, applied =>
    (if applied then [Cmd.focus (-m)] else [], false)
  | .success, applied =>
    if applied = true ∧ doSeq = false then ([Cmd.focus (-m)], false)
    else ([], applied)

/-- The `latiss_acquire` method: pre-loop focus application, the acquisition
loop, and the exit-path bookkeeping.  Returns the emitted command trace, the
exit kind, and the final `manual_focus_offset_applied` flag. -/
def latiss_acquire (cfg : AcqConfig) (meas : ℕ → MeasOutcome)
    (applied0 : Bool) : List Cmd × AcqExit × Bool :=
  let m := cfg.manual_focus_offset
  let pre := acquirePre m applied0
  let r := acqLoop cfg.target_pointing_tolerance m meas cfg.max_acq_iter 0 pre.2
  let post := acquirePost m cfg.do_take_sequence r.2.1 r.2.2
  (pre.1 ++ r.1 ++ post.1, r.2.1, post.2)

/-- The per-visit loop of `latiss_take_sequence`: before each exposure the
manual focus offset is applied when nonzero and not currently applied. -/
def takeSeqVisits (m : ℚ) : ℕ → Bool → List Cmd × Bool
  | 0, applied => ([], applied)
  | n + 1, applied =>
    let pre :=
      if m ≠ 0 ∧ applied = false then ([Cmd.focus m], true) else ([], applied)
    let rest := takeSeqVisits m n pre.2
    (pre.1 ++ rest.1, rest.2)

/-- The `latiss_take_sequence` method: the visit loop followed by the final
removal of the focus offset when applied. -/
def latiss_take_sequence (m : ℚ) (nvisits : ℕ) (applied : Bool) :
    List Cmd × Bool :=
  let r := takeSeqVisits m nvisits applied
  if r.2 then (r.1 ++ [Cmd.focus (-m)], false) else r

/-- Result of a full `arun` call: normal completion, or a propagated
RuntimeError from the acquisition phase. -/
inductive RunResult
  | ok
  | raised (e : AcqExit)
  deriving DecidableEq

/-- The `arun` method: the acquisition phase when `do_acquire` (an exception
propagates and skips the sequence phase), then the take-sequence phase when
`do_take_sequence`.  The `manual_focus_offset_applied` flag is `False` after
`configure`. -/
def arun (cfg : AcqConfig) (meas : ℕ → MeasOutcome) : List Cmd × RunResult :=
  if cfg.do_acquire then
    let r := latiss_acquire cfg meas false
    match r.2.1 with
    | .centroidError => (r.1, .raised .centroidError)
    | .maxIterError => (r.1, .raised .maxIterError)
    | .success =>
      if cfg.do_take_sequence then
        let s := latiss_take_sequence cfg.manual_focus_offset cfg.nvisits r.2.2
        (r.1 ++ s.1, .ok)
      else (r.1, .ok)
  else
    if cfg.do_take_sequence then
      let s := latiss_take_sequence cfg.manual_focus_offset cfg.nvisits false
      (s.1, .ok)
    else ([], .ok)

theorem neg_ne_self_of_ne_zero {m : ℚ} (hm : m ≠ 0) : -m ≠ m := by
  intro h
  apply hm
  linarith

theorem focus_neg_ne {m : ℚ} (hm : m ≠ 0) : Cmd.focus (-m) ≠ Cmd.focus m := by
  intro h
  exact neg_ne_self_of_ne_zero hm (by injection h)

/-- Command-counting invariant of the acquisition loop: the loop never
applies the focus offset, removes it exactly when it exits through the
centroid-error path with the offset applied, and otherwise leaves the
applied flag unchanged. -/
theorem acqLoop_focus_spec (tol m : ℚ) (meas : ℕ → MeasOutcome)
    (hm : m ≠ 0) :
    ∀ (n i : ℕ) (applied : Bool),
      (acqLoop tol m meas n i applied).1.count (Cmd.focus m) = 0
      ∧ (acqLoop tol m meas n i applied).1.count (Cmd.focus (-m))
          = (if (acqLoop tol m meas n i applied).2.1 = AcqExit.centroidError
                ∧ applied = true then 1 else 0)
      ∧ (acqLoop tol m meas n i applied).2.2
          = (if (acqLoop tol m meas n i applied).2.1 = AcqExit.centroidError
                then false else applied) := by
  intro n
  induction n with
  | zero =>
    intro i applied
    simp [acqLoop]
  | succ n ih =>
    intro i applied
    rcases hmeas : meas i with dr | _
    · by_cases hlt : dr < tol
      · simp [acqLoop, hmeas, hlt]
      · have h := ih (i + 1) applied
        simp only [acqLoop, hmeas]
        rw [if_neg hlt]
        simp only [List.count_cons, List.count_nil]
        constructor
        · simp [h.1]
        constructor
        · rcases h.2 with ⟨h2, h3⟩
          simp only [h2]
          rcases hex : (acqLoop tol m meas n (i + 1) applied).2.1 <;> simp [hex]
        · rcases h.2 with ⟨h2, h3⟩
          exact h3
    · rcases applied with _ | _
      · simp [acqLoop, hmeas]
      · simp [acqLoop, hmeas, List.count_cons, focus_neg_ne hm,
          neg_ne_self_of_ne_zero hm, hm]

/-- If the measured radial error never falls strictly below the tolerance,
the loop runs all its iterations, exits through the budget-exhaustion path,
issues exactly one telescope offset and one measurement per iteration, and
leaves the applied flag unchanged. -/
theorem acqLoop_noconv (tol m : ℚ) (meas : ℕ → MeasOutcome)
    (h : ∀ i, ∃ d, meas i = .ok d ∧ tol ≤ d) :
    ∀ (n i : ℕ) (applied : Bool),
      (acqLoop tol m meas n i applied).2.1 = AcqExit.maxIterError
      ∧ (acqLoop tol m meas n i applied).1.count Cmd.offsetXY = n
      ∧ (acqLoop tol m meas n i applied).1.count Cmd.measure = n
      ∧ (acqLoop tol m meas n i applied).2.2 = applied := by
  intro n
  induction n with
  | zero =>
    intro i applied
    simp [acqLoop]
  | succ n ih =>
    intro i applied
    obtain ⟨d, hd, hled⟩ := h i
    have hnlt : ¬ d < tol := not_lt.mpr hled
    have hrec := ih (i + 1) applied
    simp only [acqLoop, hd]
    rw [if_neg hnlt]
    simp only [List.count_cons, List.count_nil]
    refine ⟨hrec.1, ?_, ?_, hrec.2.2.2⟩
    · simp [hrec.2.1]
    · simp [hrec.2.2.1]

/-- The visit loop of `latiss_take_sequence` does nothing when the focus
offset is already applied on entry. -/
theorem takeSeqVisits_applied (m : ℚ) :
    ∀ n : ℕ, takeSeqVisits m n true = ([], true) := by
  intro n
  induction n with
  | zero => rfl
  | succ n ih => simp [takeSeqVisits, ih]

/-- Focus-offset bookkeeping of a whole `latiss_acquire` call with a nonzero
manual focus offset: the offset is applied exactly once, and removed exactly
once except on the success exit that hands over to the take-sequence phase,
in which case the applied flag is left set. -/
theorem acquire_focus_counts (cfg : AcqConfig) (meas : ℕ → MeasOutcome)
    (hm : cfg.manual_focus_offset ≠ 0) :
    (latiss_acquire cfg meas false).1.count
        (Cmd.focus cfg.manual_focus_offset) = 1
    ∧ (latiss_acquire cfg meas false).1.count
        (Cmd.focus (-cfg.manual_focus_offset))
      = (if (latiss_acquire cfg meas false).2.1 = AcqExit.success
            ∧ cfg.do_take_sequence = true then 0 else 1)
    ∧ (latiss_acquire cfg meas false).2.2
      = (if (latiss_acquire cfg meas false).2.1 = AcqExit.success
            ∧ cfg.do_take_sequence = true then true else false) := by
  have hpre : acquirePre cfg.manual_focus_offset false
      = ([Cmd.focus cfg.manual_focus_offset], true) := by
    simp [acquirePre, hm]
  have hloop := acqLoop_focus_spec cfg.target_pointing_tolerance
    cfg.manual_focus_offset meas hm cfg.max_acq_iter 0 true
  simp only [latiss_acquire, hpre]
  set L := acqLoop cfg.target_pointing_tolerance cfg.manual_focus_offset meas
    cfg.max_acq_iter 0 true with hL
  obtain ⟨hc1, hc2, hc3⟩ := hloop
  rcases hex : L.2.1 with _ | _ | _
  · -- success exit
    rw [hex] at hc2 hc3
    simp only [reduceCtorEq, false_and, if_false] at hc2 hc3
    rcases hseq : cfg.do_take_sequence with _ | _
    · simp [acquirePost, hex, hc3, hseq, List.count_append, List.count_cons,
        hc1, hc2, focus_neg_ne hm, neg_ne_self_of_ne_zero hm, hm]
    · simp [acquirePost, hex, hc3, hseq, List.count_append, List.count_cons,
        hc1, hc2, focus_neg_ne hm, neg_ne_self_of_ne_zero hm, hm]
  · -- centroid-error exit
    rw [hex] at hc2 hc3
    simp only [and_true, if_true, if_pos rfl] at hc2 hc3
    simp [acquirePost, hex, hc3, List.count_append, List.count_cons,
      hc1, hc2, focus_neg_ne hm, neg_ne_self_of_ne_zero hm, hm]
  · -- budget-exhaustion exit
    rw [hex] at hc2 hc3
    simp only [reduceCtorEq, false_and, if_false] at hc2 hc3
    simp [acquirePost, hex, hc3, List.count_append, List.count_cons,
      hc1, hc2, focus_neg_ne hm, neg_ne_self_of_ne_zero hm, hm]

/-- C1: for every acquisition run with a nonzero manual focus offset, on
every exit path of the centroid acquisition loop (success — with or without
a follow-up take-sequence phase — iteration-budget exhaustion, or the error
raised when centroid measurement is unsuccessful) the focus offset is
removed exactly once before the run ends or the error propagates, so the
number of focus-offset-apply commands equals the number of
focus-offset-remove commands. -/
theorem c1_focus_rollback_net_zero (cfg : AcqConfig) (meas : ℕ → MeasOutcome)
    (hm : cfg.manual_focus_offset ≠ 0) (ha : cfg.do_acquire = true) :
    (arun cfg meas).1.count (Cmd.focus cfg.manual_focus_offset)
      = (arun cfg meas).1.count (Cmd.focus (-cfg.manual_focus_offset))
    ∧ (arun cfg meas).1.count (Cmd.focus (-cfg.manual_focus_offset)) = 1 := by
  obtain ⟨ha1, ha2, ha3⟩ := acquire_focus_counts cfg meas hm
  simp only [arun, ha, if_true]
  set R := latiss_acquire cfg meas false with hR
  rcases hex : R.2.1 with _ | _ | _
  · -- acquisition success
    rw [hex] at ha2 ha3
    rcases hseq : cfg.do_take_sequence with _ | _
    · rw [hseq] at ha2 ha3
      simp only [and_false, if_false] at ha2 ha3
      simp [hex, hseq, ha1, ha2]
    · rw [hseq] at ha2 ha3
      simp only [and_self, if_true, if_pos rfl] at ha2 ha3
      simp [hex, hseq, latiss_take_sequence, ha3, takeSeqVisits_applied,
        List.count_append, List.count_cons, ha1, ha2, focus_neg_ne hm,
        neg_ne_self_of_ne_zero hm, hm]
  · rw [hex] at ha2 ha3
    simp only [reduceCtorEq, false_and, if_false] at ha2 ha3
    simp [hex, ha1, ha2]
  · rw [hex] at ha2 ha3
    simp only [reduceCtorEq, false_and, if_false] at ha2 ha3
    simp [hex, ha1, ha2]

/-- Witness for C1 at a concrete configuration: nonzero manual focus offset,
two iterations, a run that converges on the second measurement. -/
theorem c1_focus_rollback_net_zero_witness :
    (arun ⟨1/10, 2, 5, true, true, 3⟩
        (fun i => if i = 0 then .ok 7 else .ok 2)).1.count
      (Cmd.focus (1/10))
    = (arun ⟨1/10, 2, 5, true, true, 3⟩
        (fun i => if i = 0 then .ok 7 else .ok 2)).1.count
      (Cmd.focus (-(1/10)))
    ∧ (arun ⟨1/10, 2, 5, true, true, 3⟩
        (fun i => if i = 0 then .ok 7 else .ok 2)).1.count
      (Cmd.focus (-(1/10))) = 1 :=
  c1_focus_rollback_net_zero ⟨1/10, 2, 5, true, true, 3⟩
    (fun i => if i = 0 then .ok 7 else .ok 2) (by norm_num) rfl

theorem acquirePre_other_counts (m : ℚ) (b : Bool) :
    (acquirePre m b).1.count Cmd.measure = 0
    ∧ (acquirePre m b).1.count Cmd.offsetXY = 0 := by
  unfold acquirePre
  split <;> simp

theorem acquirePost_other_counts (m : ℚ) (doSeq : Bool) (ex : AcqExit)
    (b : Bool) :
    (acquirePost m doSeq ex b).1.count Cmd.measure = 0
    ∧ (acquirePost m doSeq ex b).1.count Cmd.offsetXY = 0 := by
  rcases doSeq <;> rcases b <;> rcases ex <;> simp [acquirePost]

/-- An acquisition run whose measurements never fall strictly below the
tolerance exhausts the iteration budget, performing one measurement and one
telescope offset per iteration. -/
theorem acquire_noconv (cfg : AcqConfig) (meas : ℕ → MeasOutcome)
    (h : ∀ i, ∃ d, meas i = .ok d ∧ cfg.target_pointing_tolerance ≤ d) :
    (latiss_acquire cfg meas false).2.1 = AcqExit.maxIterError
    ∧ (latiss_acquire cfg meas false).1.count Cmd.measure = cfg.max_acq_iter
    ∧ (latiss_acquire cfg meas false).1.count Cmd.offsetXY
        = cfg.max_acq_iter := by
  have hloop := acqLoop_noconv cfg.target_pointing_tolerance
    cfg.manual_focus_offset meas h cfg.max_acq_iter 0
    (acquirePre cfg.manual_focus_offset false).2
  have hpre := acquirePre_other_counts cfg.manual_focus_offset false
  simp only [latiss_acquire, List.count_append]
  refine ⟨hloop.1, ?_, ?_⟩
  · have hpost := acquirePost_other_counts cfg.manual_focus_offset
      cfg.do_take_sequence
      (acqLoop cfg.target_pointing_tolerance cfg.manual_focus_offset meas
        cfg.max_acq_iter 0 (acquirePre cfg.manual_focus_offset false).2).2.1
      (acqLoop cfg.target_pointing_tolerance cfg.manual_focus_offset meas
        cfg.max_acq_iter 0 (acquirePre cfg.manual_focus_offset false).2).2.2
    rw [hpre.1, hloop.2.2.1, hpost.1]
    omega
  · have hpost := acquirePost_other_counts cfg.manual_focus_offset
      cfg.do_take_sequence
      (acqLoop cfg.target_pointing_tolerance cfg.manual_focus_offset meas
        cfg.max_acq_iter 0 (acquirePre cfg.manual_focus_offset false).2).2.1
      (acqLoop cfg.target_pointing_tolerance cfg.manual_focus_offset meas
        cfg.max_acq_iter 0 (acquirePre cfg.manual_focus_offset false).2).2.2
    rw [hpre.2, hloop.2.1, hpost.2]
    omega

/-- An acquisition run whose first measurement is strictly below the
tolerance succeeds immediately with no telescope offset command. -/
theorem acquire_first_converges (cfg : AcqConfig) (meas : ℕ → MeasOutcome)
    (d : ℚ) (h0 : meas 0 = .ok d)
    (hd : d < cfg.target_pointing_tolerance) (hmax : 1 ≤ cfg.max_acq_iter) :
    (latiss_acquire cfg meas false).2.1 = AcqExit.success
    ∧ (latiss_acquire cfg meas false).1.count Cmd.offsetXY = 0 := by
  obtain ⟨k, hk⟩ : ∃ k, cfg.max_acq_iter = k + 1 :=
    ⟨cfg.max_acq_iter - 1, by omega⟩
  have hloop : ∀ b : Bool,
      acqLoop cfg.target_pointing_tolerance cfg.manual_focus_offset meas
        cfg.max_acq_iter 0 b = ([Cmd.measure], AcqExit.success, b) := by
    intro b
    rw [hk]
    simp [acqLoop, h0, hd]
  have hpre := acquirePre_other_counts cfg.manual_focus_offset false
  simp only [latiss_acquire, List.count_append, hloop]
  have hpost := acquirePost_other_counts cfg.manual_focus_offset
    cfg.do_take_sequence AcqExit.success
    (acquirePre cfg.manual_focus_offset false).2
  refine ⟨by simp, ?_⟩
  simp [hpre.2, hpost.2]

/-- C2 (claim as stated is false): with a never-converging source and
max_acq_iter = 3 the loop exhausts its budget having issued three telescope
offset commands, not max_acq_iter - 1 = 2 — an offset is issued even after
the final failed measurement. -/
theorem c2_budget_offsets_counterexample :
    (latiss_acquire ⟨0, 3, 5, true, false, 0⟩
        (fun _ => MeasOutcome.ok 10) false).2.1 = AcqExit.maxIterError
    ∧ (latiss_acquire ⟨0, 3, 5, true, false, 0⟩
        (fun _ => MeasOutcome.ok 10) false).1.count Cmd.offsetXY = 3
    ∧ (latiss_acquire ⟨0, 3, 5, true, false, 0⟩
        (fun _ => MeasOutcome.ok 10) false).1.count Cmd.offsetXY ≠ 3 - 1 := by
  refine ⟨by decide, by decide, by decide⟩

/-- C2 (amended): for every acquisition run against a source whose measured
radial error never falls strictly below the tolerance, the loop performs
exactly max_acq_iter measurement iterations, reports failure, and issues
exactly max_acq_iter telescope offset commands — one after every failed
measurement, including the final one. -/
theorem c2_budget_exhaustion_amended (cfg : AcqConfig)
    (meas : ℕ → MeasOutcome)
    (h : ∀ i, ∃ d, meas i = .ok d ∧ cfg.target_pointing_tolerance ≤ d) :
    (latiss_acquire cfg meas false).2.1 = AcqExit.maxIterError
    ∧ (latiss_acquire cfg meas false).1.count Cmd.measure = cfg.max_acq_iter
    ∧ (latiss_acquire cfg meas false).1.count Cmd.offsetXY
        = cfg.max_acq_iter :=
  acquire_noconv cfg meas h

/-- Witness for the amended C2 at a concrete adversarial run. -/
theorem c2_budget_exhaustion_amended_witness :
    (latiss_acquire ⟨0, 4, 5, true, false, 0⟩
        (fun _ => MeasOutcome.ok 9) false).2.1 = AcqExit.maxIterError
    ∧ (latiss_acquire ⟨0, 4, 5, true, false, 0⟩
        (fun _ => MeasOutcome.ok 9) false).1.count Cmd.measure = 4
    ∧ (latiss_acquire ⟨0, 4, 5, true, false, 0⟩
        (fun _ => MeasOutcome.ok 9) false).1.count Cmd.offsetXY = 4 :=
  c2_budget_exhaustion_amended ⟨0, 4, 5, true, false, 0⟩
    (fun _ => MeasOutcome.ok 9)
    (fun i => ⟨9, rfl, by norm_num⟩)

/-- C5: the convergence test is a strict less-than — a run all of whose
measured radial errors equal the tolerance exactly never converges (it
exhausts the budget), while a run whose first measured error is strictly
below the tolerance converges at once, stopping the loop successfully with
no telescope offset command issued. -/
theorem c5_strict_tolerance (cfg : AcqConfig) (meas : ℕ → MeasOutcome) :
    ((∀ i, meas i = .ok cfg.target_pointing_tolerance) →
      (latiss_acquire cfg meas false).2.1 = AcqExit.maxIterError)
    ∧ (∀ d, meas 0 = .ok d → d < cfg.target_pointing_tolerance →
        1 ≤ cfg.max_acq_iter →
        (latiss_acquire cfg meas false).2.1 = AcqExit.success
        ∧ (latiss_acquire cfg meas false).1.count Cmd.offsetXY = 0) := by
  constructor
  · intro h
    exact (acquire_noconv cfg meas
      (fun i => ⟨cfg.target_pointing_tolerance, h i, le_refl _⟩)).1
  · intro d h0 hd hmax
    exact acquire_first_converges cfg meas d h0 hd hmax

/-- Witness for C5: a run measuring exactly the tolerance (5 arcsec) fails
after its budget, and a run measuring 5 - 1/1000 arcsec converges at once
with no offset command. -/
theorem c5_strict_tolerance_witness :
    (latiss_acquire ⟨0, 2, 5, true, false, 0⟩
        (fun _ => MeasOutcome.ok 5) false).2.1 = AcqExit.maxIterError
    ∧ ((latiss_acquire ⟨0, 2, 5, true, false, 0⟩
          (fun _ => MeasOutcome.ok (5 - 1/1000)) false).2.1 = AcqExit.success
        ∧ (latiss_acquire ⟨0, 2, 5, true, false, 0⟩
            (fun _ => MeasOutcome.ok (5 - 1/1000)) false).1.count
          Cmd.offsetXY = 0) :=
  ⟨(c5_strict_tolerance ⟨0, 2, 5, true, false, 0⟩
      (fun _ => MeasOutcome.ok 5)).1 (fun i => rfl),
    (c5_strict_tolerance ⟨0, 2, 5, true, false, 0⟩
      (fun _ => MeasOutcome.ok (5 - 1/1000))).2 (5 - 1/1000) rfl
      (by norm_num) (by norm_num)⟩

end AcqScript

namespace CWFSScript

/-- Row vector of three rational components, used for the zernike triple,
the hexapod correction and the telescope offset of LatissCWFSAlign. -/
structure Vec3 where
  x : ℚ
  y : ℚ
  z : ℚ
  deriving DecidableEq

/-- A 3 x 3 rational matrix, row major. -/
structure Mat3 where
  a11 : ℚ
  a12 : ℚ
  a13 : ℚ
  a21 : ℚ
  a22 : ℚ
  a23 : ℚ
  a31 : ℚ
  a32 : ℚ
  a33 : ℚ
  deriving DecidableEq

/-- Row-vector times matrix, the semantics of np.matmul with a 1-D first
argument. -/
def vecMatMul (v : Vec3) (M : Mat3) : Vec3 :=
  ⟨v.x * M.a11 + v.y * M.a21 + v.z * M.a31,
   v.x * M.a12 + v.y * M.a22 + v.z * M.a32,
   v.x * M.a13 + v.y * M.a23 + v.z * M.a33⟩

/-- Componentwise scaling of a coefficient vector. -/
def smulVec (k : ℚ) (v : Vec3) : Vec3 := ⟨k * v.x, k * v.y, k * v.z⟩

/-- The sensitivity matrix of LatissCWFSAlign (mm of hexapod motion per nm of
wavefront error). -/
def sensitivity_matrix : Mat3 :=
  ⟨1/131, 0, 0,
   0, -1/131, 0,
   0, 0, -1/4200⟩

/-- The rotation matrix of LatissCWFSAlign, parameterized by the cosine and
sine of the rotation angle; at angle 0 degrees these are exactly (1, 0). -/
def rotation_matrix (c s : ℚ) : Mat3 :=
  ⟨c, -s, 0,
   s, c, 0,
   0, 0, 1⟩

/-- The hexapod-to-sky scale matrix of LatissCWFSAlign (arcsec per mm; only
the x and y axes are populated). -/
def hexapod_offset_scale : Mat3 :=
  ⟨60, 0, 0,
   0, 60, 0,
   0, 0, 0⟩

/-- The offset-mapping computation of the show_results method: de-rotate the
zernike triple, multiply by the sensitivity matrix to get the hexapod
correction, and multiply by the scale matrix to get the telescope offset.
The pair (c, s) stands for the cosine and sine of
angle + camera_rotation_angle. -/
def show_results (c s : ℚ) (zern : Vec3) : Vec3 × Vec3 :=
  let rot_zern := vecMatMul zern (rotation_matrix c s)
  let hexapod_offset := vecMatMul rot_zern sensitivity_matrix
  let tel_offset := vecMatMul hexapod_offset hexapod_offset_scale
  (hexapod_offset, tel_offset)

/-- Python slice-bound normalization for an axis of length n: a negative
bound counts from the end and the result is clamped into [0, n]. -/
def pyBound (v n : ℤ) : ℤ := if v < 0 then max (n + v) 0 else min v n

/-- Length of the Python slice a[l:u] along an axis of length n. -/
def pySliceLen (l u n : ℤ) : ℤ := max (pyBound u n - pyBound l n) 0

/-- A 2-D image: dimensions plus a pixel function. -/
structure Img where
  rows : ℕ
  cols : ℕ
  px : ℕ → ℕ → ℚ

/-- The square-window cut of center_and_cut_images:
arr[ceny - side : ceny + side, cenx - side : cenx + side] with numpy/Python
slice semantics — out-of-bounds windows are silently clipped, never an
error. -/
def cutSquare (img : Img) (ceny cenx side : ℤ) : Img :=
  ⟨(pySliceLen (ceny - side) (ceny + side) (img.rows : ℤ)).toNat,
   (pySliceLen (cenx - side) (cenx + side) (img.cols : ℤ)).toNat,
   fun i j =>
     img.px ((pyBound (ceny - side) (img.rows : ℤ)).toNat + i)
       ((pyBound (cenx - side) (img.cols : ℤ)).toNat + j)⟩

/-- The rebin method: arr.reshape(n0, rows/n0, n1, cols/n1).mean(-1).mean(1),
i.e. block averaging down to an n0 x n1 image (the reshape requires the
dimensions to be exactly divisible; this is the case in the pipeline where
rows and cols are multiples of the binning factor). -/
def rebin (img : Img) (n0 n1 : ℕ) : Img :=
  ⟨n0, n1,
   fun i j =>
     (∑ p ∈ Finset.range (img.rows / n0),
        (∑ q ∈ Finset.range (img.cols / n1),
          img.px (i * (img.rows / n0) + p) (j * (img.cols / n1) + q))
          / ((img.cols / n1 : ℕ) : ℚ))
       / ((img.rows / n0 : ℕ) : ℚ)⟩

/-- Modelled from the spec and the source of center_and_cut_images: the
stamp-pair production for one selected source — cut the same square window
from the intra- and extra-focal images and, when the binning factor is not
one, block-average both windows down by the binning factor (the new shape is
computed from the intra window and used for both stamps).  This is the
intended semantics of lines 513-538 of latiss_cwfs_align.py; the binned
branch of the source as written raises NameError because the module
copy is used (copy.deepcopy) but never imported. -/
def center_and_cut (intra extra : Img) (ceny cenx side : ℤ) (binning : ℕ) :
    Img × Img :=
  let intra_square := cutSquare intra ceny cenx side
  let extra_square := cutSquare extra ceny cenx side
  if binning ≠ 1 then
    let n0 := intra_square.rows / binning
    let n1 := intra_square.cols / binning
    (rebin intra_square n0 n1, rebin extra_square n0 n1)
  else
    (intra_square, extra_square)

/-- A detected source as consumed by select_cwfs_source: footprint bounding
box dimensions, summed flux over the footprint, and footprint centroid. -/
structure Source where
  width : ℤ
  height : ℤ
  flux : ℚ
  centx : ℚ
  centy : ℚ
  deriving DecidableEq

/-- The sum_source_flux helper of select_cwfs_source: sources whose bounding
box is smaller than min_size in either dimension get flux -1. -/
def sum_source_flux (s : Source) (min_size : ℤ) : ℚ :=
  if s.width < min_size ∨ s.height < min_size then -1 else s.flux

/-- The Python exception select_cwfs_source actually raises on an empty
detection result: the out-of-range access result.sources[0]. -/
inductive PyErr
  | indexError
  deriving DecidableEq

/-- The brightest-source scan of select_cwfs_source over sources 1..n-1,
carrying (selected index, selected flux, selected x, selected y) and
replacing the selection on a strictly greater flux. -/
def selectLoop (min_size : ℤ) :
    List Source → ℕ → ℕ × ℚ × ℚ × ℚ → ℕ × ℚ × ℚ × ℚ
  | [], _, acc => acc
  | s :: rest, i, acc =>
    if acc.2.1 < sum_source_flux s min_size then
      selectLoop min_size rest (i + 1)
        (i, sum_source_flux s min_size, s.centx, s.centy)
    else
      selectLoop min_size rest (i + 1) acc

/-- The select_cwfs_source method: initializes the selection from
result.sources[0] — raising IndexError when the detection returned zero
sources, with no dedicated zero-source check or message — then scans the
remaining sources for the highest flux. -/
def select_cwfs_source (sources : List Source) (min_size : ℤ) :
    Except PyErr (ℕ × ℚ × ℚ × ℚ) :=
  match sources with
  | [] => .error .indexError
  | s0 :: rest =>
    .ok (selectLoop min_size rest 1
      (0, sum_source_flux s0 min_size, s0.centx, s0.centy))

/-- The physical instrument model built by the dz setter (the .param file
contents plus the stamp dimension passed to the Instrument constructor). -/
structure Instrument where
  obscuration : ℚ
  focal_length : ℚ
  aperture_diameter : ℚ
  offset : ℚ
  pixel_size : ℚ
  sensor_dim : ℤ
  deriving DecidableEq

/-- Python int() on a rational: truncation toward zero. -/
def pyInt (q : ℚ) : ℤ := if 0 ≤ q then q.floor else -((-q).floor)

/-- The side property: int(self._side * self.dz / 1.5) with _side = 192. -/
def side (dz : ℚ) : ℤ := pyInt (192 * dz / (3/2))

/-- The instrument model written and constructed by the dz setter:
obscuration 0.3525, focal length 21.6 m, aperture 1.2 m, per-side defocus
offset dz * 0.041 m, pixel size 10e-6 m times the binning factor, and stamp
dimension int(side * 2 / binning). -/
def buildInstrument (dz : ℚ) (binning : ℤ) : Instrument :=
  ⟨3525/10000, 216/10, 12/10,
   dz * (41/1000),
   (1/100000) * (binning : ℚ),
   pyInt (((side dz * 2 : ℤ) : ℚ) / (binning : ℚ))⟩

/-- The mutable configuration state of LatissCWFSAlign relevant to the
dz/binning properties: the backing fields _dz and _binning and the derived
instrument model (None until dz is first assigned). -/
structure AlignState where
  dz_field : Option ℚ
  binning_field : ℤ
  inst : Option Instrument
  deriving DecidableEq

/-- The dz setter: stores the value and rebuilds the instrument model (and
the wavefront algorithm) from the new dz and the current binning. -/
def set_dz (v : ℚ) (s : AlignState) : AlignState :=
  ⟨some v, s.binning_field, some (buildInstrument v s.binning_field)⟩

/-- The dz getter: when _dz is unset it assigns the default 0.8 through the
setter (rebuilding the model) before returning it. -/
def dz_get (s : AlignState) : ℚ × AlignState :=
  match s.dz_field with
  | some v => (v, s)
  | none => (8/10, set_dz (8/10) s)

/-- The binning setter: stores the value and re-runs the dz setter
(self.dz = self.dz), so the instrument model is rebuilt with the new
binning. -/
def set_binning (b : ℤ) (s : AlignState) : AlignState :=
  let s1 : AlignState := ⟨s.dz_field, b, s.inst⟩
  let p := dz_get s1
  set_dz p.1 p.2

/-- An assignment to one of the two configuration properties. -/
inductive ConfigOp
  | setDz (v : ℚ)
  | setBinning (b : ℤ)

/-- Run one property assignment on the configuration state. -/
def applyOp : ConfigOp → AlignState → AlignState
  | .setDz v, s => set_dz v s
  | .setBinning b, s => set_binning b s

/-- One hexapod offset command as built by the hexapod_offset method: all
axes zero except the focus axis z. -/
structure HexapodOffset where
  m1 : ℚ
  m2 : ℚ
  x : ℚ
  y : ℚ
  z : ℚ
  u : ℚ
  v : ℚ
  deriving DecidableEq

/-- The offset dictionary sent by hexapod_offset(offset). -/
def hexapod_offset (o : ℚ) : HexapodOffset := ⟨0, 0, 0, 0, o, 0, 0⟩

/-- The three hexapod moves issued by take_intra_extra: to the intra-focal
position, to the extra-focal position, and back to the starting focus. -/
def take_intra_extra (dz : ℚ) : List HexapodOffset :=
  [hexapod_offset (-dz), hexapod_offset (dz * 2), hexapod_offset (-dz)]

/-- C3 (claim as stated is false): on a 400 x 400 cropped image with mask
center (100, 100) and stamp half-width 192 the window extends beyond the
image bounds, yet the stamp extractor raises no error — numpy slicing
silently clips the window (here to an empty 0 x 0 stamp) instead of
reporting a fatal configuration error. -/
theorem c3_window_bounds_counterexample :
    ((100 : ℤ) - 192 < 0)
    ∧ (cutSquare ⟨400, 400, fun _ _ => 0⟩ 100 100 192).rows = 0
    ∧ (cutSquare ⟨400, 400, fun _ _ => 0⟩ 100 100 192).cols = 0
    ∧ ¬((cutSquare ⟨400, 400, fun _ _ => 0⟩ 100 100 192).rows = 2 * 192
        ∧ (cutSquare ⟨400, 400, fun _ _ => 0⟩ 100 100 192).cols = 2 * 192) := by
  refine ⟨by decide, by decide, by decide, by decide⟩

/-- C3 (amended): when the square window around the mask center of mass
extends beyond the bounds of the cropped image, the stamp extractor does not
raise: numpy slice semantics silently clip the window, producing a stamp
strictly smaller than 2*side in the exceeded dimension (possibly empty). -/
theorem c3_silent_clip_amended (img : Img) (ceny cenx sd : ℤ)
    (hy0 : 0 ≤ ceny) (hy1 : ceny < (img.rows : ℤ))
    (hx0 : 0 ≤ cenx) (hx1 : cenx < (img.cols : ℤ))
    (hs : 0 < sd)
    (hout : ceny - sd < 0 ∨ (img.rows : ℤ) < ceny + sd
      ∨ cenx - sd < 0 ∨ (img.cols : ℤ) < cenx + sd) :
    (cutSquare img ceny cenx sd).rows < (2 * sd).toNat
    ∨ (cutSquare img ceny cenx sd).cols < (2 * sd).toNat := by
  simp only [cutSquare, pySliceLen, pyBound, max_def, min_def]
  rcases hout with h | h | h | h
  · left
    split_ifs <;> omega
  · left
    split_ifs <;> omega
  · right
    split_ifs <;> omega
  · right
    split_ifs <;> omega

/-- Witness for the amended C3 at the counterexample geometry. -/
theorem c3_silent_clip_amended_witness :
    (cutSquare ⟨400, 400, fun _ _ => (0 : ℚ)⟩ 100 100 192).rows
        < ((2 : ℤ) * 192).toNat
    ∨ (cutSquare ⟨400, 400, fun _ _ => (0 : ℚ)⟩ 100 100 192).cols
        < ((2 : ℤ) * 192).toNat :=
  c3_silent_clip_amended ⟨400, 400, fun _ _ => 0⟩ 100 100 192
    (by decide) (by decide) (by decide) (by decide) (by decide)
    (Or.inl (by decide))

/-- C4 (claim as stated is false): for the pure-defocus coefficient vector
(0, 0, 4200) nm at rotation angle 0 the hexapod correction z component is
-1 mm, not 4200 / 4200 = +1 mm — the sensitivity matrix z entry is
-1/4200. -/
theorem c4_pure_defocus_counterexample :
    (show_results 1 0 ⟨0, 0, 4200⟩).1 ≠ ⟨0, 0, 4200 / 4200⟩ := by
  intro h
  have hz := congrArg Vec3.z h
  norm_num [show_results, vecMatMul, rotation_matrix, sensitivity_matrix]
    at hz

/-- C4 (amended): for a pure defocus of A nm at rotation angle 0 (cosine 1,
sine 0) the hexapod correction has x and y exactly 0 and z equal to
-A / 4200 mm, and the derived telescope offset is exactly zero. -/
theorem c4_pure_defocus_amended (A : ℚ) :
    (show_results 1 0 ⟨0, 0, A⟩).1 = ⟨0, 0, -A / 4200⟩
    ∧ (show_results 1 0 ⟨0, 0, A⟩).2 = ⟨0, 0, 0⟩ := by
  constructor <;>
    · simp only [show_results, vecMatMul, rotation_matrix, sensitivity_matrix,
        hexapod_offset_scale, Vec3.mk.injEq]
      refine ⟨by ring, by ring, by ring⟩

/-- C7: the optical offset mapper is linear in the wavefront coefficients —
scaling the zernike vector by k scales both the hexapod correction and the
telescope sky offset by exactly k, for every rotation. -/
theorem c7_mapper_linearity (c s k : ℚ) (zern : Vec3) :
    show_results c s (smulVec k zern)
      = (smulVec k (show_results c s zern).1,
          smulVec k (show_results c s zern).2) := by
  simp only [show_results, vecMatMul, smulVec, rotation_matrix,
    sensitivity_matrix, hexapod_offset_scale, Prod.mk.injEq, Vec3.mk.injEq]
  refine ⟨⟨by ring, by ring, by ring⟩, by ring, by ring, by ring⟩

/-- C6 (intended behavior): for equally sized intra- and extra-focal inputs
the stamp pair always has identical dimensions — the same window is cut from
both and the same new shape is used for both block-binnings — and with
binning factor 2 a 384 x 384 cut window yields 192 x 192 stamps.  In the
source as written the binned branch is unreachable: it raises NameError
because the module copy is used without being imported. -/
theorem c6_stamp_shapes (r c : ℕ) (f g : ℕ → ℕ → ℚ) (ceny cenx sd : ℤ)
    (binning : ℕ) :
    ((center_and_cut ⟨r, c, f⟩ ⟨r, c, g⟩ ceny cenx sd binning).1.rows
        = (center_and_cut ⟨r, c, f⟩ ⟨r, c, g⟩ ceny cenx sd binning).2.rows
      ∧ (center_and_cut ⟨r, c, f⟩ ⟨r, c, g⟩ ceny cenx sd binning).1.cols
        = (center_and_cut ⟨r, c, f⟩ ⟨r, c, g⟩ ceny cenx sd binning).2.cols)
    ∧ ((center_and_cut ⟨800, 800, f⟩ ⟨800, 800, g⟩ 400 400 192 2).1.rows = 192
      ∧ (center_and_cut ⟨800, 800, f⟩ ⟨800, 800, g⟩ 400 400 192 2).1.cols = 192
      ∧ (center_and_cut ⟨800, 800, f⟩ ⟨800, 800, g⟩ 400 400 192 2).2.rows = 192
      ∧ (center_and_cut ⟨800, 800, f⟩ ⟨800, 800, g⟩ 400 400 192 2).2.cols
          = 192) := by
  constructor
  · unfold center_and_cut
    split
    · simp [rebin, cutSquare]
    · simp [cutSquare]
  · have h384 : Int.toNat 384 / 2 = 192 := by decide
    refine ⟨?_, ?_, ?_, ?_⟩ <;>
      norm_num [center_and_cut, cutSquare, pySliceLen, pyBound, rebin, h384]

/-- C8 (claim as stated is false): when the detection result is empty the
source selector raises the generic out-of-range IndexError from accessing
sources[0]; there is no dedicated zero-sources failure message. -/
theorem c8_zero_sources_counterexample :
    select_cwfs_source [] 300 = Except.error PyErr.indexError := rfl

/-- C8 (amended): select_cwfs_source fails — with a generic IndexError, not
a specific zero-sources message — exactly when the detection returned zero
sources; on any nonempty detection it returns a selection. -/
theorem c8_zero_sources_amended (sources : List Source) (min_size : ℤ) :
    select_cwfs_source sources min_size = Except.error PyErr.indexError
      ↔ sources = [] := by
  cases sources <;> simp [select_cwfs_source]

/-- C9: every assignment to dz or to binning rebuilds the instrument model
as a unit from the post-assignment values of both parameters: the rebuilt
model has pixel size 10e-6 times the binning factor, per-side defocus offset
dz * 0.041 m, and stamp dimension int(side * 2 / binning); there is no
assignment after which the stored model disagrees with the stored
parameters. -/
theorem c9_config_rebuilt_as_unit (s : AlignState) (op : ConfigOp) :
    ∃ v, (applyOp op s).dz_field = some v
      ∧ (applyOp op s).inst
          = some (buildInstrument v (applyOp op s).binning_field)
      ∧ (buildInstrument v (applyOp op s).binning_field).pixel_size
          = (1/100000) * ((applyOp op s).binning_field : ℚ)
      ∧ (buildInstrument v (applyOp op s).binning_field).offset
          = v * (41/1000)
      ∧ (buildInstrument v (applyOp op s).binning_field).sensor_dim
          = pyInt (((side v * 2 : ℤ) : ℚ)
              / (((applyOp op s).binning_field : ℤ) : ℚ)) := by
  rcases op with v | b
  · exact ⟨v, rfl, rfl, rfl, rfl, rfl⟩
  · rcases hdz : s.dz_field with _ | w
    · refine ⟨8/10, ?_, ?_, rfl, rfl, rfl⟩ <;>
        simp [applyOp, set_binning, dz_get, hdz, set_dz]
    · refine ⟨w, ?_, ?_, rfl, rfl, rfl⟩ <;>
        simp [applyOp, set_binning, dz_get, hdz, set_dz]

/-- C10: a complete take_intra_extra call issues exactly three hexapod
offsets, of -dz, +2 dz and -dz on the focus axis, summing to zero — the
telescope ends in the focus position it started in — while every other axis
(m1, m2, x, y, u, v) receives only zero offsets. -/
theorem c10_focus_neutral (dz : ℚ) :
    (take_intra_extra dz).length = 3
    ∧ (take_intra_extra dz).map HexapodOffset.z = [-dz, dz * 2, -dz]
    ∧ ((take_intra_extra dz).map HexapodOffset.z).sum = 0
    ∧ (take_intra_extra dz).map HexapodOffset.m1 = [0, 0, 0]
    ∧ (take_intra_extra dz).map HexapodOffset.m2 = [0, 0, 0]
    ∧ (take_intra_extra dz).map HexapodOffset.x = [0, 0, 0]
    ∧ (take_intra_extra dz).map HexapodOffset.y = [0, 0, 0]
    ∧ (take_intra_extra dz).map HexapodOffset.u = [0, 0, 0]
    ∧ (take_intra_extra dz).map HexapodOffset.v = [0, 0, 0] := by
  refine ⟨rfl, rfl, ?_, rfl, rfl, rfl, rfl, rfl, rfl⟩
  simp [take_intra_extra, hexapod_offset]
  ring

end CWFSScript
